import Mathlib

/-!
Verification of the reservation/inventory core of a car-rental backend.

The embedding below translates, function by function, the booking
controller (`createBooking`, `cancelBooking`, `updateBooking`), the
`Booking` model's pre-save hook, and the `Car` model's inventory fields.
Timestamps are milliseconds as integers; money amounts are integers;
Mongo object ids are strings.  The HTTP layer, date-string parsing and
the notification gateway are outside the core: a create request carries
the already-parsed pickup/dropoff timestamps (with `none` marking a
missing field), and e-mail calls are dropped (they never change
reservation or inventory state; failures there are swallowed by the
controller).
-/

/-- Reservation lifecycle status (`bookingStatus` enum of the Booking schema). -/
inductive BookingStatus where
  | pending
  | confirmed
  | cancelled
  | completed
deriving DecidableEq, Repr

/-- The inventory-relevant fields of a `Car` document.  The schema has no
`totalUnits` field: `totalCarsAvailable` is the only unit counter, and
`isAvailable` is the stored availability flag. -/
structure Car where
  pricePerDay : Int
  totalCarsAvailable : Int
  isAvailable : Bool
deriving DecidableEq, Repr

/-- The fields of a `Booking` document that the reservation core reads or
writes.  `user` and `car` are object-id strings. -/
structure Booking where
  user : String
  car : String
  pickupLocation : String
  pickupDate : Int
  dropoffDate : Int
  totalDays : Nat
  pricePerDay : Int
  totalPrice : Int
  additionalDriver : Bool
  insuranceSelected : Bool
  bookingStatus : BookingStatus
  cancellationReason : Option String
deriving DecidableEq, Repr

/-- The authenticated requester: `req.user.id` and `req.user.role`. -/
structure Actor where
  id : String
  role : String
deriving DecidableEq, Repr

/-- A create request after date parsing.  `pickupDate = none` models a
missing `pickupDate` field (likewise `dropoffDate`); an empty `carId` or
`pickupLocation` models a missing/empty field (JS falsiness of the raw
body values).  `additionalDriver`/`insuranceSelected` are `none` when the
body omits them. -/
structure CreateRequest where
  carId : String
  pickupLocation : String
  pickupDate : Option Int
  dropoffDate : Option Int
  additionalDriver : Option Bool
  insuranceSelected : Option Bool
deriving DecidableEq, Repr

/-- `24 * 60 * 60 * 1000` milliseconds, the `oneDay` constant of the code. -/
def oneDay : Nat := 24 * 60 * 60 * 1000

/-- `Math.ceil(|diff| / oneDay)` on integer millisecond differences. -/
def ceilDays (diff : Int) : Nat := (diff.natAbs + oneDay - 1) / oneDay

/-- The `BookingSchema.pre('save')` hook: on every save it recomputes
`totalDays = Math.ceil(|dropoff - pickup| / oneDay)` and rebuilds
`totalPrice` from the document's stored `pricePerDay`, `insuranceSelected`
(15/day) and `additionalDriver` (10/day) flags. -/
def preSave (b : Booking) : Booking :=
  let diffDays : Nat := ceilDays (b.dropoffDate - b.pickupDate)
  let p0 : Int := b.pricePerDay * (diffDays : Int)
  let p1 : Int := if b.insuranceSelected then p0 + 15 * (diffDays : Int) else p0
  let p2 : Int := if b.additionalDriver then p1 + 10 * (diffDays : Int) else p1
  { b with totalDays := diffDays, totalPrice := p2 }

/-- Statuses the overlap query matches: `bookingStatus: { $in: ["confirmed", "pending"] }`. -/
def isActiveStatus : BookingStatus → Bool
  | .confirmed => true
  | .pending => true
  | _ => false

/-- The `Booking.findOne` overlap query of `createBooking`: same car,
active status, `pickupDate < dropoffDateTime` and `dropoffDate > pickupDateTime`. -/
def blocksWindow (carId : String) (pickup dropoff : Int) (b : Booking) : Bool :=
  b.car == carId && isActiveStatus b.bookingStatus &&
    decide (b.pickupDate < dropoff) && decide (pickup < b.dropoffDate)

/-- Failure cases of `createBooking`, in the order the controller checks them. -/
inductive CreateErr where
  | missingFields
  | dropoffNotAfterPickup
  | carNotFound
  | carNotAvailable
  | slotConflict
  | minimumOneDay
deriving DecidableEq, Repr

/-- Failure cases of `cancelBooking`, in the order the controller checks
them.  `carLookupFailed` models the uncaught `TypeError` thrown when
`Car.findById(booking.car)` returns null before the inventory increment. -/
inductive CancelErr where
  | notFound
  | reasonRequired
  | forbidden
  | alreadyCancelled
  | cannotCancelCompleted
  | carLookupFailed
deriving DecidableEq, Repr

/-- Failure cases of `updateBooking`. -/
inductive UpdateErr where
  | missingStatus
  | invalidStatus
  | notFound
  | fullyBooked
deriving DecidableEq, Repr

/-- The shared inventory-release step of `cancelBooking` and of
`updateBooking`'s to-cancelled branch: `totalCarsAvailable += 1`, then
`if (!isAvailable && totalCarsAvailable > 0) isAvailable = true`. -/
def releaseUnitCar (car : Car) : Car :=
  let car1 := { car with totalCarsAvailable := car.totalCarsAvailable + 1 }
  if car1.isAvailable = false ∧ 0 < car1.totalCarsAvailable then
    { car1 with isAvailable := true }
  else car1

/-- The controller constants of `createBooking` turned into fields of the
document handed to `Booking.create`: `totalDays = Math.ceil((dropoff - pickup) / oneDay)`,
the controller price (`pricePerDay * totalDays`, plus `15/day` when the
request body truthily selects insurance, plus `10/day` for a truthy
additional driver), `additionalDriver || false` and
`insuranceSelected !== false`, status `"confirmed"`. -/
def newBookingDoc (userId : String) (req : CreateRequest)
    (pickup dropoff : Int) (car : Car) : Booking :=
  let totalDays : Nat := ((dropoff - pickup).toNat + oneDay - 1) / oneDay
  let base : Int := car.pricePerDay * (totalDays : Int)
  let p1 : Int := if req.insuranceSelected.getD false then
      base + 15 * (totalDays : Int) else base
  let p2 : Int := if req.additionalDriver.getD false then
      p1 + 10 * (totalDays : Int) else p1
  { user := userId
    car := req.carId
    pickupLocation := req.pickupLocation
    pickupDate := pickup
    dropoffDate := dropoff
    totalDays := totalDays
    pricePerDay := car.pricePerDay
    totalPrice := p2
    additionalDriver := req.additionalDriver.getD false
    insuranceSelected :=
      match req.insuranceSelected with
      | some false => false
      | _ => true
    bookingStatus := .confirmed
    cancellationReason := none }

/-- The car write at the end of `createBooking`:
`if (totalCarsAvailable === 1) isAvailable = false;` then
`totalCarsAvailable = Math.max(0, totalCarsAvailable - 1)`. -/
def createCarSave (car : Car) : Car :=
  let car1 := if car.totalCarsAvailable = 1 then
      { car with isAvailable := false } else car
  { car1 with totalCarsAvailable := max 0 (car1.totalCarsAvailable - 1) }

/-- `createBooking`.  `fc` is the car catalog (`Car.findById`),
`bookings` the reservation store the overlap query runs against,
`userId` the authenticated requester id.  On success it returns the
persisted booking (after the pre-save hook) and the saved car. -/
def createBooking (fc : String → Option Car) (bookings : List Booking)
    (userId : String) (req : CreateRequest) : Except CreateErr (Booking × Car) :=
  if req.carId = "" ∨ req.pickupLocation = "" ∨
      req.pickupDate = none ∨ req.dropoffDate = none then
    .error .missingFields
  else
    let pickup := req.pickupDate.getD 0
    let dropoff := req.dropoffDate.getD 0
    if dropoff ≤ pickup then .error .dropoffNotAfterPickup
    else
      match fc req.carId with
      | none => .error .carNotFound
      | some car =>
        if car.isAvailable = false then .error .carNotAvailable
        else if bookings.any (blocksWindow req.carId pickup dropoff) then
          .error .slotConflict
        else
          let totalDays : Nat := ((dropoff - pickup).toNat + oneDay - 1) / oneDay
          if totalDays < 1 then .error .minimumOneDay
          else .ok (preSave (newBookingDoc userId req pickup dropoff car),
            createCarSave car)

/-- `cancelBooking`.  `fb` is the result of `Booking.findById(req.params.id)`,
`fc` the car catalog, `reason` the body's `cancellationReason` (empty string
models a missing/empty falsy value).  The controller checks, in order:
booking missing, empty reason, authorization, already cancelled, completed;
then saves the cancelled booking and increments the car's counter. -/
def cancelBooking (fb : Option Booking) (fc : String → Option Car)
    (actor : Actor) (reason : String) : Except CancelErr (Booking × Car) :=
  match fb with
  | none => .error .notFound
  | some booking =>
    if reason = "" then .error .reasonRequired
    else if booking.user ≠ actor.id ∧ actor.role ≠ "admin" then .error .forbidden
    else if booking.bookingStatus = .cancelled then .error .alreadyCancelled
    else if booking.bookingStatus = .completed then .error .cannotCancelCompleted
    else
      let saved := preSave { booking with
          bookingStatus := .cancelled, cancellationReason := some reason }
      match fc booking.car with
      | none => .error .carLookupFailed
      | some car => .ok (saved, releaseUnitCar car)

/-- The effective cancellation reason of `updateBooking`'s to-cancelled
branch: `req.body.cancellationReason || "Cancelled by admin"`. -/
def adminReason (reasonOpt : Option String) : String :=
  match reasonOpt with
  | some r => if r = "" then "Cancelled by admin" else r
  | none => "Cancelled by admin"

/-- The `validStatuses` check of `updateBooking` together with the enum
conversion: `some` exactly on `["pending", "confirmed", "cancelled", "completed"]`. -/
def parseStatus : String → Option BookingStatus
  | "pending" => some .pending
  | "confirmed" => some .confirmed
  | "cancelled" => some .cancelled
  | "completed" => some .completed
  | _ => none

/-- `updateBooking` (admin status change).  `newStatus` is the body's
`status` field (`none` when missing), `reasonOpt` the optional
cancellation reason.  The result carries the saved booking and the car
write performed, if any (`none` when no car save happened).  The
function takes no reservation list: the controller runs no overlap
query on any of its paths. -/
def updateBooking (fb : Option Booking) (fc : String → Option Car)
    (newStatus : Option String) (reasonOpt : Option String) :
    Except UpdateErr (Booking × Option Car) :=
  match newStatus with
  | none => .error .missingStatus
  | some s =>
    match parseStatus s with
    | none => .error .invalidStatus
    | some st =>
      match fb with
      | none => .error .notFound
      | some booking =>
        let oldStatus := booking.bookingStatus
        let b1 := { booking with bookingStatus := st }
        if st = .cancelled ∧ oldStatus ≠ .cancelled then
          let b2 := { b1 with cancellationReason := some (adminReason reasonOpt) }
          .ok (preSave b2, (fc booking.car).map releaseUnitCar)
        else if st = .confirmed ∧ oldStatus = .cancelled then
          match fc booking.car with
          | some car =>
            if car.totalCarsAvailable ≤ 0 then .error .fullyBooked
            else
              let car1 := { car with
                  totalCarsAvailable := car.totalCarsAvailable - 1 }
              let car2 := if car1.totalCarsAvailable = 0 then
                  { car1 with isAvailable := false } else car1
              .ok (preSave b1, some car2)
          | none => .ok (preSave b1, none)
        else .ok (preSave b1, none)

/-- `true` exactly on the success branch of an `Except`. -/
def exceptOk {ε α : Type} : Except ε α → Bool
  | .ok _ => true
  | .error _ => false

instance {ε α : Type} [DecidableEq ε] [DecidableEq α] : DecidableEq (Except ε α)
  | .ok a, .ok b =>
    if h : a = b then .isTrue (by rw [h])
    else .isFalse (fun he => by cases he; exact h rfl)
  | .ok _, .error _ => .isFalse (fun he => Except.noConfusion he)
  | .error _, .ok _ => .isFalse (fun he => Except.noConfusion he)
  | .error e, .error f =>
    if h : e = f then .isTrue (by rw [h])
    else .isFalse (fun he => by cases he; exact h rfl)

/-- The redundancy invariant on a car: the stored `isAvailable` flag
agrees with `availableUnits > 0`. -/
def carInv (c : Car) : Prop := c.isAvailable = true ↔ 0 < c.totalCarsAvailable

instance (c : Car) : Decidable (carInv c) := by
  unfold carInv; infer_instance

/-- Modelled from the spec: the Resource Registry operation `releaseUnit`,
which "increments `availableUnits` (capped at `totalUnits`); if it was 0,
sets `isAvailable=true`".  The `Car` schema has no `totalUnits` field, so
the cap bound is taken as a parameter; this definition exists only to be
compared with the increment the code actually performs. -/
def releaseUnitSpec (totalUnits : Int) (car : Car) : Car :=
  let car1 := { car with
      totalCarsAvailable := min (car.totalCarsAvailable + 1) totalUnits }
  if car1.isAvailable = false ∧ 0 < car1.totalCarsAvailable then
    { car1 with isAvailable := true }
  else car1

/-! Concrete fixtures used by counterexample and witness theorems. -/

/-- A car advertised as available whose unit counter is exhausted. -/
def zeroUnitCar : Car := { pricePerDay := 50, totalCarsAvailable := 0, isAvailable := true }

/-- A one-car catalog mapping `"car1"` to `zeroUnitCar`. -/
def zeroUnitCatalog : String → Option Car :=
  fun i => if i = "car1" then some zeroUnitCar else none

/-- A car with one unit on the shelf. -/
def oneUnitCar : Car := { pricePerDay := 50, totalCarsAvailable := 1, isAvailable := true }

/-- A one-car catalog mapping `"car1"` to `oneUnitCar`. -/
def oneUnitCatalog : String → Option Car :=
  fun i => if i = "car1" then some oneUnitCar else none

/-- A car with two units on the shelf. -/
def twoUnitCar : Car := { pricePerDay := 50, totalCarsAvailable := 2, isAvailable := true }

/-- A one-car catalog mapping `"car1"` to `twoUnitCar`. -/
def twoUnitCatalog : String → Option Car :=
  fun i => if i = "car1" then some twoUnitCar else none

/-- A catalog with no cars at all. -/
def emptyCatalog : String → Option Car := fun _ => none

/-- A three-day create request (window `[0, 3 days)`) for `"car1"` with
insurance explicitly selected. -/
def sampleReq : CreateRequest :=
  { carId := "car1", pickupLocation := "Lisbon", pickupDate := some 0,
    dropoffDate := some 259200000, additionalDriver := none,
    insuranceSelected := some true }

/-- The same three-day request with the `insuranceSelected` field omitted. -/
def sampleReqNoIns : CreateRequest :=
  { sampleReq with insuranceSelected := none }

/-- A persisted three-day booking on `"car1"` owned by `"u1"`. -/
def sampleBooking : Booking :=
  { user := "u1", car := "car1", pickupLocation := "Lisbon",
    pickupDate := 0, dropoffDate := 259200000, totalDays := 3,
    pricePerDay := 50, totalPrice := 195, additionalDriver := false,
    insuranceSelected := true, bookingStatus := .confirmed,
    cancellationReason := none }

/-- `sampleBooking` in status `completed`. -/
def completedBooking : Booking := { sampleBooking with bookingStatus := .completed }

/-- `sampleBooking` in status `cancelled`. -/
def cancelledBooking : Booking := { sampleBooking with bookingStatus := .cancelled }

/-! Helper lemmas shared by the claim theorems. -/

theorem isActiveStatus_iff (s : BookingStatus) :
    isActiveStatus s = true ↔ s = .pending ∨ s = .confirmed := by
  cases s <;> simp [isActiveStatus]

theorem any_blocksWindow_iff (bookings : List Booking) (cid : String) (p d : Int) :
    bookings.any (blocksWindow cid p d) = true ↔
      ∃ b ∈ bookings, b.car = cid ∧
        (b.bookingStatus = .pending ∨ b.bookingStatus = .confirmed) ∧
        p < b.dropoffDate ∧ b.pickupDate < d := by
  simp only [List.any_eq_true, blocksWindow, Bool.and_eq_true, beq_iff_eq,
    decide_eq_true_eq, isActiveStatus_iff]
  constructor
  · rintro ⟨b, hb, ⟨⟨hcar, hst⟩, hpk⟩, hdp⟩
    exact ⟨b, hb, hcar, hst, hdp, hpk⟩
  · rintro ⟨b, hb, hcar, hst, hdp, hpk⟩
    exact ⟨b, hb, ⟨⟨hcar, hst⟩, hpk⟩, hdp⟩

theorem one_le_ceil_div {n : Nat} (h : 1 ≤ n) : 1 ≤ (n + oneDay - 1) / oneDay := by
  unfold oneDay
  omega

theorem ceil_div_cast (n k : Nat) (hk : 0 < k) :
    (((n + k - 1) / k : Nat) : ℤ) = ⌈(n : ℚ) / (k : ℚ)⌉ := by
  have hkQ : (0 : ℚ) < (k : ℚ) := by exact_mod_cast hk
  obtain ⟨q, r, hq, hr, hdm⟩ :
      ∃ q r, q = (n + k - 1) / k ∧ r < k ∧ k * q + r = n + k - 1 :=
    ⟨_, _, rfl, Nat.mod_lt _ hk, Nat.div_add_mod (n + k - 1) k⟩
  rw [← hq]
  have h1 : n ≤ k * q := by omega
  have h2 : k * q < n + k := by omega
  have h1Q : (n : ℚ) ≤ (k : ℚ) * (q : ℚ) := by exact_mod_cast h1
  have h2Q : (k : ℚ) * (q : ℚ) < (n : ℚ) + (k : ℚ) := by exact_mod_cast h2
  rw [eq_comm, Int.ceil_eq_iff]
  refine ⟨?_, ?_⟩
  · rw [lt_div_iff₀ hkQ]
    push_cast
    have e : ((q : ℚ) - 1) * (k : ℚ) = (k : ℚ) * (q : ℚ) - (k : ℚ) := by ring
    linarith
  · rw [div_le_iff₀ hkQ]
    push_cast
    have e : (q : ℚ) * (k : ℚ) = (k : ℚ) * (q : ℚ) := by ring
    linarith

theorem releaseUnitCar_counter (c : Car) :
    (releaseUnitCar c).totalCarsAvailable = c.totalCarsAvailable + 1 := by
  simp only [releaseUnitCar]
  split <;> rfl

theorem createBooking_run (fc : String → Option Car) (bookings : List Booking)
    (uid : String) (req : CreateRequest) (p d : Int) (car : Car)
    (h1 : req.carId ≠ "") (h2 : req.pickupLocation ≠ "")
    (h3 : req.pickupDate = some p) (h4 : req.dropoffDate = some d)
    (h5 : p < d) (h6 : fc req.carId = some car) (h7 : car.isAvailable = true) :
    createBooking fc bookings uid req =
      if bookings.any (blocksWindow req.carId p d) then .error .slotConflict
      else .ok (preSave (newBookingDoc uid req p d car), createCarSave car) := by
  have hng : ¬ (d ≤ p) := not_le.mpr h5
  have htd : ¬ (((d - p).toNat + oneDay - 1) / oneDay < 1) := by
    have hn : 1 ≤ (d - p).toNat := by omega
    exact not_lt.mpr (one_le_ceil_div hn)
  simp only [createBooking, h3, h4, Option.getD_some, h6, h1, h2, hng, htd]
  simp [h7]

theorem createBooking_ok_inv {fc : String → Option Car} {bookings : List Booking}
    {uid : String} {req : CreateRequest} {b : Booking} {c : Car}
    (h : createBooking fc bookings uid req = .ok (b, c)) :
    ∃ p d car, req.pickupDate = some p ∧ req.dropoffDate = some d ∧ p < d ∧
      fc req.carId = some car ∧ car.isAvailable = true ∧
      bookings.any (blocksWindow req.carId p d) = false ∧
      b = preSave (newBookingDoc uid req p d car) ∧ c = createCarSave car := by
  by_cases h1 : req.carId = ""
  · simp [createBooking, h1] at h
  rcases hp : req.pickupDate with _ | p
  · simp [createBooking, h1, hp] at h
  rcases hd : req.dropoffDate with _ | d
  · simp [createBooking, h1, hp, hd] at h
  by_cases h2 : req.pickupLocation = ""
  · simp [createBooking, h1, h2, hp, hd] at h
  by_cases h5 : d ≤ p
  · simp [createBooking, h1, h2, hp, hd, h5] at h
  rcases hcar : fc req.carId with _ | car
  · simp [createBooking, h1, h2, hp, hd, h5, hcar] at h
  by_cases h7 : car.isAvailable = false
  · simp [createBooking, h1, h2, hp, hd, h5, hcar, h7] at h
  rw [createBooking_run fc bookings uid req p d car h1 h2 hp hd (not_le.mp h5)
    hcar (Bool.not_eq_false _ |>.mp h7)] at h
  cases hany : bookings.any (blocksWindow req.carId p d) with
  | true => simp [hany] at h
  | false =>
    simp only [hany, Bool.false_eq_true, if_false, Except.ok.injEq, Prod.mk.injEq] at h
    exact ⟨p, d, car, rfl, rfl, not_le.mp h5, rfl, Bool.not_eq_false _ |>.mp h7,
      hany, h.1.symm, h.2.symm⟩

theorem cancelBooking_run (fc : String → Option Car) (actor : Actor)
    (reason : String) (b : Booking) (car : Car)
    (hr : reason ≠ "") (hauth : b.user = actor.id ∨ actor.role = "admin")
    (hs1 : b.bookingStatus ≠ .cancelled) (hs2 : b.bookingStatus ≠ .completed)
    (hcar : fc b.car = some car) :
    cancelBooking (some b) fc actor reason =
      .ok (preSave { b with bookingStatus := .cancelled
                            cancellationReason := some reason },
        releaseUnitCar car) := by
  have hown : ¬ (b.user ≠ actor.id ∧ actor.role ≠ "admin") := by tauto
  simp only [cancelBooking, if_neg hr, if_neg hown, if_neg hs1, if_neg hs2, hcar]

theorem updateBooking_cancelled_run (fc : String → Option Car)
    (reasonOpt : Option String) (b : Booking) (h : b.bookingStatus ≠ .cancelled) :
    updateBooking (some b) fc (some "cancelled") reasonOpt =
      .ok (preSave { b with bookingStatus := .cancelled
                            cancellationReason := some (adminReason reasonOpt) },
        (fc b.car).map releaseUnitCar) := by
  have hps : parseStatus "cancelled" = some BookingStatus.cancelled := rfl
  simp only [updateBooking, hps]
  rw [if_pos (show _ ∧ _ from ⟨by simp, h⟩)]

theorem updateBooking_reconfirm_run (fc : String → Option Car)
    (reasonOpt : Option String) (b : Booking) (car : Car)
    (hb : b.bookingStatus = .cancelled) (hcar : fc b.car = some car) :
    updateBooking (some b) fc (some "confirmed") reasonOpt =
      if car.totalCarsAvailable ≤ 0 then .error .fullyBooked
      else .ok (preSave { b with bookingStatus := .confirmed },
        some (if car.totalCarsAvailable - 1 = 0
          then { car with totalCarsAvailable := car.totalCarsAvailable - 1
                          isAvailable := false }
          else { car with totalCarsAvailable := car.totalCarsAvailable - 1 })) := by
  have hps : parseStatus "confirmed" = some BookingStatus.confirmed := rfl
  simp only [updateBooking, hps]
  rw [if_neg (by simp), if_pos (show _ ∧ _ from ⟨by simp, hb⟩), hcar]

theorem updateBooking_reconfirm_nocar (fc : String → Option Car)
    (reasonOpt : Option String) (b : Booking)
    (hb : b.bookingStatus = .cancelled) (hcar : fc b.car = none) :
    updateBooking (some b) fc (some "confirmed") reasonOpt =
      .ok (preSave { b with bookingStatus := .confirmed }, none) := by
  have hps : parseStatus "confirmed" = some BookingStatus.confirmed := rfl
  simp only [updateBooking, hps]
  rw [if_neg (by simp), if_pos (show _ ∧ _ from ⟨by simp, hb⟩), hcar]

theorem releaseUnitCar_inv (c : Car) (h : carInv c) : carInv (releaseUnitCar c) := by
  unfold carInv at h ⊢
  simp only [releaseUnitCar]
  split
  · rename_i hcond
    simpa using hcond.2
  · rename_i hcond
    simp only [not_and, not_lt] at hcond
    cases hav : c.isAvailable with
    | false =>
      have hle := hcond (by simp [hav])
      simp only [hav, Bool.false_eq_true, false_iff, not_lt]
      exact hle
    | true =>
      simp only [hav, true_iff] at h
      simp only [hav, true_iff]
      omega

theorem createCarSave_zero (car : Car) (h : car.totalCarsAvailable = 0) :
    createCarSave car = car := by
  obtain ⟨ppd, tca, av⟩ := car
  simp only at h
  subst h
  simp [createCarSave]

/-! Claim theorems. -/

/-- C1, counterexample: a create request on an existing car whose
`isAvailable` flag is true, with a valid window and no conflicting
reservation, SUCCEEDS even though the car's unit counter
(`totalCarsAvailable`) is 0: a reservation is persisted and no
FullyBooked-style error occurs.  The controller never consults the unit
counter as a capacity check; its only capacity signal at creation is the
`isAvailable` flag. -/
theorem create_zero_units_succeeds_counterexample :
    zeroUnitCar.totalCarsAvailable = 0 ∧ zeroUnitCar.isAvailable = true ∧
    createBooking zeroUnitCatalog [] "u1" sampleReq =
      .ok (preSave (newBookingDoc "u1" sampleReq 0 259200000 zeroUnitCar),
        zeroUnitCar) := by
  refine ⟨rfl, rfl, ?_⟩
  decide

/-- C1 (amended): the unit counter is NOT a second capacity signal at
creation.  For every create request on an existing car whose `isAvailable`
flag is true, whose window passes validation and whose overlap check finds
no conflict, creation succeeds even when the car's unit counter is 0: the
reservation is persisted and the saved car is unchanged (the decrement is
clamped at 0 by `Math.max(0, ...)`, and `isAvailable` stays true because
the flag is only cleared when the counter was exactly 1). -/
theorem create_capacity_signal_is_flag_only
    (fc : String → Option Car) (bookings : List Booking) (uid : String)
    (req : CreateRequest) (p d : Int) (car : Car)
    (h1 : req.carId ≠ "") (h2 : req.pickupLocation ≠ "")
    (h3 : req.pickupDate = some p) (h4 : req.dropoffDate = some d)
    (h5 : p < d) (h6 : fc req.carId = some car) (h7 : car.isAvailable = true)
    (h8 : bookings.any (blocksWindow req.carId p d) = false)
    (h9 : car.totalCarsAvailable = 0) :
    createBooking fc bookings uid req =
      .ok (preSave (newBookingDoc uid req p d car), car) := by
  rw [createBooking_run fc bookings uid req p d car h1 h2 h3 h4 h5 h6 h7,
    if_neg (by simp [h8]), createCarSave_zero car h9]

/-- Witness for C1 at a concrete input. -/
theorem create_capacity_signal_is_flag_only_witness :
    zeroUnitCar.totalCarsAvailable = 0 ∧ zeroUnitCar.isAvailable = true ∧
    createBooking zeroUnitCatalog [] "u1" sampleReq =
      .ok (preSave (newBookingDoc "u1" sampleReq 0 259200000 zeroUnitCar),
        zeroUnitCar) :=
  ⟨rfl, rfl,
    create_capacity_signal_is_flag_only zeroUnitCatalog [] "u1" sampleReq
      0 259200000 zeroUnitCar (by decide) (by decide) rfl rfl (by decide)
      (by decide) rfl rfl rfl⟩

/-- C2, counterexample: a reservation in status `completed` is NOT
terminal for the admin `updateBooking` operation: setting it to
`cancelled` succeeds, its status becomes `cancelled`, and the car's unit
counter is incremented from 1 to 2 (an inventory change). -/
theorem completed_setStatus_mutates_counterexample :
    completedBooking.bookingStatus = .completed ∧
    updateBooking (some completedBooking) oneUnitCatalog (some "cancelled") none =
      .ok (preSave { completedBooking with
              bookingStatus := .cancelled
              cancellationReason := some "Cancelled by admin" },
        some { pricePerDay := 50, totalCarsAvailable := 2, isAvailable := true }) ∧
    (preSave { completedBooking with
        bookingStatus := .cancelled
        cancellationReason := some "Cancelled by admin" }).bookingStatus ≠
      BookingStatus.completed ∧
    oneUnitCar.totalCarsAvailable ≠ (2 : Int) := by
  decide

/-- C2 (amended): `completed` is terminal for the cancel endpoint only.
Every cancel of a completed reservation fails (so neither its status nor
any inventory changes), but the admin `updateBooking` has no terminal
guard: setting a completed reservation to `cancelled` succeeds, changes
the status to `cancelled` and increments the car's unit counter by 1. -/
theorem completed_terminal_only_for_cancel
    (fc : String → Option Car) (actor : Actor) (reason : String)
    (reasonOpt : Option String) (b : Booking) (car : Car) :
    (b.bookingStatus = .completed →
      exceptOk (cancelBooking (some b) fc actor reason) = false) ∧
    (b.bookingStatus = .completed → fc b.car = some car →
      updateBooking (some b) fc (some "cancelled") reasonOpt =
        .ok (preSave { b with
            bookingStatus := .cancelled
            cancellationReason := some (adminReason reasonOpt) },
          some (releaseUnitCar car)) ∧
      (releaseUnitCar car).totalCarsAvailable = car.totalCarsAvailable + 1) := by
  constructor
  · intro hc
    simp only [cancelBooking]
    split_ifs with hreason hown hcanc
    · rfl
    · rfl
    · rfl
    · rfl
  · intro hc hcar
    refine ⟨?_, releaseUnitCar_counter car⟩
    have hne : b.bookingStatus ≠ .cancelled := by simp [hc]
    rw [updateBooking_cancelled_run fc reasonOpt b hne, hcar]
    rfl

/-- Witness for C2 at a concrete input. -/
theorem completed_terminal_only_for_cancel_witness :
    completedBooking.bookingStatus = .completed ∧
    exceptOk (cancelBooking (some completedBooking) oneUnitCatalog
      { id := "u1", role := "user" } "changed plans") = false ∧
    (updateBooking (some completedBooking) oneUnitCatalog (some "cancelled") none =
      .ok (preSave { completedBooking with
            bookingStatus := .cancelled
            cancellationReason := some (adminReason none) },
        some (releaseUnitCar oneUnitCar)) ∧
      (releaseUnitCar oneUnitCar).totalCarsAvailable =
        oneUnitCar.totalCarsAvailable + 1) :=
  ⟨rfl,
    (completed_terminal_only_for_cancel oneUnitCatalog
      { id := "u1", role := "user" } "changed plans" none completedBooking
      oneUnitCar).1 rfl,
    (completed_terminal_only_for_cancel oneUnitCatalog
      { id := "u1", role := "user" } "changed plans" none completedBooking
      oneUnitCar).2 rfl (by decide)⟩

/-- C3: the create operation fails with the slot-conflict error exactly
when some reservation on the same car, in status `pending` or `confirmed`,
has a window `[c, d)` overlapping the requested `[pickup, dropoff)` in the
half-open sense (`pickup < d` and `c < dropoff`).  In particular a
reservation whose dropoff equals the new pickup does not block, and
`cancelled`/`completed` reservations never block. -/
theorem slotConflict_iff_overlap
    (fc : String → Option Car) (bookings : List Booking) (uid : String)
    (req : CreateRequest) (p d : Int) (car : Car)
    (h1 : req.carId ≠ "") (h2 : req.pickupLocation ≠ "")
    (h3 : req.pickupDate = some p) (h4 : req.dropoffDate = some d)
    (h5 : p < d) (h6 : fc req.carId = some car) (h7 : car.isAvailable = true) :
    createBooking fc bookings uid req = .error .slotConflict ↔
      ∃ b ∈ bookings, b.car = req.carId ∧
        (b.bookingStatus = .pending ∨ b.bookingStatus = .confirmed) ∧
        p < b.dropoffDate ∧ b.pickupDate < d := by
  rw [createBooking_run fc bookings uid req p d car h1 h2 h3 h4 h5 h6 h7,
    ← any_blocksWindow_iff]
  cases hany : bookings.any (blocksWindow req.carId p d) with
  | true => simp [hany]
  | false => simp [hany]

/-- Witness for C3: an overlapping confirmed reservation makes a create
request fail with the slot-conflict error. -/
theorem slotConflict_iff_overlap_witness :
    createBooking oneUnitCatalog [sampleBooking] "u2" sampleReq =
      .error .slotConflict :=
  (slotConflict_iff_overlap oneUnitCatalog [sampleBooking] "u2" sampleReq
    0 259200000 oneUnitCar (by decide) (by decide) rfl rfl (by decide)
    (by decide) rfl).mpr
    ⟨sampleBooking, by simp, rfl, Or.inr rfl, by decide, by decide⟩

/-- C5, counterexample: a cancel request by an actor who is neither the
requester nor an admin AND who supplies an empty reason fails with the
reason-required error, not the authorization error: the controller checks
the reason before authorization. -/
theorem cancel_reason_before_auth_counterexample :
    cancelBooking (some sampleBooking) oneUnitCatalog
      { id := "u2", role := "user" } "" = .error .reasonRequired ∧
    sampleBooking.user ≠ "u2" ∧
    CancelErr.reasonRequired ≠ CancelErr.forbidden := by
  decide

/-- C5 (amended): the cancel operation checks its failure conditions in
the order: reservation absent, then EMPTY REASON, then actor neither the
requester nor privileged, then already cancelled, then completed.  In
particular an unauthorized actor with an empty reason gets the
reason-required error, not the authorization error. -/
theorem cancel_error_precedence
    (fb : Option Booking) (fc : String → Option Car) (actor : Actor)
    (reason : String) :
    (fb = none → cancelBooking fb fc actor reason = .error .notFound) ∧
    (∀ b, fb = some b → reason = "" →
      cancelBooking fb fc actor reason = .error .reasonRequired) ∧
    (∀ b, fb = some b → reason ≠ "" → b.user ≠ actor.id →
      actor.role ≠ "admin" →
      cancelBooking fb fc actor reason = .error .forbidden) ∧
    (∀ b, fb = some b → reason ≠ "" →
      (b.user = actor.id ∨ actor.role = "admin") →
      b.bookingStatus = .cancelled →
      cancelBooking fb fc actor reason = .error .alreadyCancelled) ∧
    (∀ b, fb = some b → reason ≠ "" →
      (b.user = actor.id ∨ actor.role = "admin") →
      b.bookingStatus = .completed →
      cancelBooking fb fc actor reason = .error .cannotCancelCompleted) := by
  refine ⟨?_, ?_, ?_, ?_, ?_⟩
  · rintro rfl; rfl
  · rintro b rfl hr
    simp [cancelBooking, hr]
  · rintro b rfl hr hu hrole
    simp [cancelBooking, hr, hu, hrole]
  · rintro b rfl hr hauth hst
    have hown : ¬ (b.user ≠ actor.id ∧ actor.role ≠ "admin") := by tauto
    simp [cancelBooking, hr, hown, hst]
  · rintro b rfl hr hauth hst
    have hown : ¬ (b.user ≠ actor.id ∧ actor.role ≠ "admin") := by tauto
    have hnc : b.bookingStatus ≠ .cancelled := by simp [hst]
    simp [cancelBooking, hr, hown, hnc, hst]

/-- Witness for C5: the reason check fires for the booking owner with an
empty reason. -/
theorem cancel_error_precedence_witness :
    cancelBooking (some sampleBooking) oneUnitCatalog
      { id := "u1", role := "user" } "" = .error .reasonRequired :=
  (cancel_error_precedence (some sampleBooking) oneUnitCatalog
    { id := "u1", role := "user" } "").2.1 sampleBooking rfl rfl

theorem preSave_fields (x : Booking) :
    (preSave x).user = x.user ∧
    (preSave x).car = x.car ∧
    (preSave x).pickupDate = x.pickupDate ∧
    (preSave x).dropoffDate = x.dropoffDate ∧
    (preSave x).pricePerDay = x.pricePerDay ∧
    (preSave x).insuranceSelected = x.insuranceSelected ∧
    (preSave x).additionalDriver = x.additionalDriver ∧
    (preSave x).bookingStatus = x.bookingStatus ∧
    (preSave x).totalDays = ceilDays (x.dropoffDate - x.pickupDate) ∧
    (preSave x).totalPrice =
      x.pricePerDay * (ceilDays (x.dropoffDate - x.pickupDate) : Int)
      + (if x.insuranceSelected then
          15 * (ceilDays (x.dropoffDate - x.pickupDate) : Int) else 0)
      + (if x.additionalDriver then
          10 * (ceilDays (x.dropoffDate - x.pickupDate) : Int) else 0) := by
  unfold preSave
  refine ⟨rfl, rfl, rfl, rfl, rfl, rfl, rfl, rfl, rfl, ?_⟩
  cases hi : x.insuranceSelected <;> cases ha : x.additionalDriver <;>
    simp [hi, ha]

theorem ceilDays_cast (diff : Int) (h : 0 < diff) :
    ((ceilDays diff : Nat) : ℤ) = ⌈(diff : ℚ) / (86400000 : ℚ)⌉ := by
  have h1 : ((diff.natAbs : Nat) : ℚ) = ((diff : ℤ) : ℚ) := by
    rw [Int.cast_natAbs]
    exact_mod_cast abs_of_nonneg h.le
  unfold ceilDays oneDay
  rw [ceil_div_cast diff.natAbs (24 * 60 * 60 * 1000) (by norm_num)]
  norm_num [h1]

theorem one_le_ceilDays (diff : Int) (h : 0 < diff) : 1 ≤ ceilDays diff := by
  unfold ceilDays
  exact one_le_ceil_div (by omega)

/-- C4: every successfully created reservation stores
`totalDays = ceil((dropoff - pickup) / 86400000) ≥ 1` and a total price
equal to `pricePerDay * totalDays`, plus `15 * totalDays` when the stored
insurance flag is true, plus `10 * totalDays` when the stored
additional-driver flag is true (the pre-save hook recomputes the price
from the stored flags). -/
theorem create_pricing
    (fc : String → Option Car) (bookings : List Booking) (uid : String)
    (req : CreateRequest) (b : Booking) (c : Car)
    (h : createBooking fc bookings uid req = .ok (b, c)) :
    b.pickupDate < b.dropoffDate ∧
    (b.totalDays : ℤ) = ⌈((b.dropoffDate - b.pickupDate : ℤ) : ℚ) / (86400000 : ℚ)⌉ ∧
    1 ≤ b.totalDays ∧
    b.totalPrice = b.pricePerDay * (b.totalDays : Int)
      + (if b.insuranceSelected then 15 * (b.totalDays : Int) else 0)
      + (if b.additionalDriver then 10 * (b.totalDays : Int) else 0) := by
  obtain ⟨p, d, car, hp, hd, hpd, hcar, hav, hany, hb, hc⟩ := createBooking_ok_inv h
  obtain ⟨-, -, hpk, hdr, hppd, hins, hadd, -, htd, hpr⟩ :=
    preSave_fields (newBookingDoc uid req p d car)
  have hpk2 : (newBookingDoc uid req p d car).pickupDate = p := rfl
  have hdr2 : (newBookingDoc uid req p d car).dropoffDate = d := rfl
  subst hb
  rw [hpk, hdr, hpk2, hdr2]
  have hdiff : (0 : Int) < d - p := by omega
  refine ⟨hpd, ?_, ?_, ?_⟩
  · rw [htd, hpk2, hdr2, ceilDays_cast (d - p) hdiff]
  · rw [htd, hpk2, hdr2]
    exact one_le_ceilDays (d - p) hdiff
  · rw [hpr, htd, hins, hadd, hppd, hpk2, hdr2]

/-- Witness for C4: the concrete three-day creation at rate 50/day with
insurance selected yields `totalDays = 3` and `totalPrice = 195`
(Scenario D of the spec). -/
theorem create_pricing_witness :
    createBooking oneUnitCatalog [] "u1" sampleReq =
      .ok (preSave (newBookingDoc "u1" sampleReq 0 259200000 oneUnitCar),
        createCarSave oneUnitCar) ∧
    (preSave (newBookingDoc "u1" sampleReq 0 259200000 oneUnitCar)).totalDays = 3 ∧
    (preSave (newBookingDoc "u1" sampleReq 0 259200000 oneUnitCar)).totalPrice = 195 ∧
    ((preSave (newBookingDoc "u1" sampleReq 0 259200000 oneUnitCar)).pickupDate <
        (preSave (newBookingDoc "u1" sampleReq 0 259200000 oneUnitCar)).dropoffDate ∧
      ((preSave (newBookingDoc "u1" sampleReq 0 259200000 oneUnitCar)).totalDays : ℤ) =
        ⌈(((preSave (newBookingDoc "u1" sampleReq 0 259200000 oneUnitCar)).dropoffDate -
            (preSave (newBookingDoc "u1" sampleReq 0 259200000 oneUnitCar)).pickupDate : ℤ) : ℚ) /
          (86400000 : ℚ)⌉ ∧
      1 ≤ (preSave (newBookingDoc "u1" sampleReq 0 259200000 oneUnitCar)).totalDays ∧
      (preSave (newBookingDoc "u1" sampleReq 0 259200000 oneUnitCar)).totalPrice =
        (preSave (newBookingDoc "u1" sampleReq 0 259200000 oneUnitCar)).pricePerDay *
          ((preSave (newBookingDoc "u1" sampleReq 0 259200000 oneUnitCar)).totalDays : Int)
        + (if (preSave (newBookingDoc "u1" sampleReq 0 259200000 oneUnitCar)).insuranceSelected
            then 15 * ((preSave (newBookingDoc "u1" sampleReq 0 259200000 oneUnitCar)).totalDays : Int) else 0)
        + (if (preSave (newBookingDoc "u1" sampleReq 0 259200000 oneUnitCar)).additionalDriver
            then 10 * ((preSave (newBookingDoc "u1" sampleReq 0 259200000 oneUnitCar)).totalDays : Int) else 0)) :=
  ⟨by decide, by decide, by decide,
    create_pricing oneUnitCatalog [] "u1" sampleReq
      (preSave (newBookingDoc "u1" sampleReq 0 259200000 oneUnitCar))
      (createCarSave oneUnitCar) (by decide)⟩

/-- C6: moving a reservation from `cancelled` to `confirmed` via the admin
status update checks only the unit counter of the car: if the counter is 0
or less the operation fails with the fully-booked error (nothing is
saved, so the reservation stays `cancelled`); otherwise the counter
decreases by exactly 1, `isAvailable` is cleared exactly when the counter
reaches 0, and the saved reservation's status is `confirmed`.  No
interval-overlap check is run on this path: `updateBooking` never reads
the reservation store (its embedding takes no booking list), so the
result does not depend on other reservations. -/
theorem reconfirm_capacity_check
    (fc : String → Option Car) (reasonOpt : Option String) (b : Booking)
    (car : Car) (hb : b.bookingStatus = .cancelled) (hcar : fc b.car = some car) :
    (car.totalCarsAvailable ≤ 0 →
      updateBooking (some b) fc (some "confirmed") reasonOpt =
        .error .fullyBooked) ∧
    (0 < car.totalCarsAvailable →
      updateBooking (some b) fc (some "confirmed") reasonOpt =
        .ok (preSave { b with bookingStatus := .confirmed },
          some (if car.totalCarsAvailable - 1 = 0
            then { car with totalCarsAvailable := car.totalCarsAvailable - 1
                            isAvailable := false }
            else { car with totalCarsAvailable := car.totalCarsAvailable - 1 })) ∧
      (preSave { b with bookingStatus := .confirmed }).bookingStatus =
        BookingStatus.confirmed) := by
  constructor
  · intro hle
    rw [updateBooking_reconfirm_run fc reasonOpt b car hb hcar, if_pos hle]
  · intro hgt
    exact ⟨by rw [updateBooking_reconfirm_run fc reasonOpt b car hb hcar,
      if_neg (by omega)], rfl⟩

/-- Witness for C6: both branches at concrete cars with 0 and 1 unit. -/
theorem reconfirm_capacity_check_witness :
    cancelledBooking.bookingStatus = .cancelled ∧
    zeroUnitCar.totalCarsAvailable ≤ 0 ∧
    updateBooking (some cancelledBooking) zeroUnitCatalog (some "confirmed") none =
      .error .fullyBooked ∧
    (0 : Int) < oneUnitCar.totalCarsAvailable ∧
    (updateBooking (some cancelledBooking) oneUnitCatalog (some "confirmed") none =
      .ok (preSave { cancelledBooking with bookingStatus := .confirmed },
        some (if oneUnitCar.totalCarsAvailable - 1 = 0
          then { oneUnitCar with totalCarsAvailable := oneUnitCar.totalCarsAvailable - 1
                                 isAvailable := false }
          else { oneUnitCar with totalCarsAvailable := oneUnitCar.totalCarsAvailable - 1 })) ∧
      (preSave { cancelledBooking with bookingStatus := .confirmed }).bookingStatus =
        BookingStatus.confirmed) :=
  ⟨rfl, by decide,
    (reconfirm_capacity_check zeroUnitCatalog none cancelledBooking zeroUnitCar
      rfl (by decide)).1 (by decide),
    by decide,
    (reconfirm_capacity_check oneUnitCatalog none cancelledBooking oneUnitCar
      rfl (by decide)).2 (by decide)⟩

/-- C9: when a reservation in status `cancelled` is set to `confirmed` but
the car it references no longer exists in the catalog, the operation does
not fail: the reservation is saved with status `confirmed`, no capacity
check fires and no car document is written. -/
theorem reconfirm_missing_car
    (fc : String → Option Car) (reasonOpt : Option String) (b : Booking)
    (hb : b.bookingStatus = .cancelled) (hcar : fc b.car = none) :
    updateBooking (some b) fc (some "confirmed") reasonOpt =
      .ok (preSave { b with bookingStatus := .confirmed }, none) ∧
    (preSave { b with bookingStatus := .confirmed }).bookingStatus =
      BookingStatus.confirmed :=
  ⟨updateBooking_reconfirm_nocar fc reasonOpt b hb hcar, rfl⟩

/-- Witness for C9 at a concrete input. -/
theorem reconfirm_missing_car_witness :
    cancelledBooking.bookingStatus = .cancelled ∧
    emptyCatalog cancelledBooking.car = none ∧
    (updateBooking (some cancelledBooking) emptyCatalog (some "confirmed") none =
      .ok (preSave { cancelledBooking with bookingStatus := .confirmed }, none) ∧
    (preSave { cancelledBooking with bookingStatus := .confirmed }).bookingStatus =
      BookingStatus.confirmed) :=
  ⟨rfl, rfl, reconfirm_missing_car emptyCatalog none cancelledBooking rfl rfl⟩

theorem createCarSave_inv (car : Car) (h : carInv car)
    (hav : car.isAvailable = true) : carInv (createCarSave car) := by
  have hpos : 0 < car.totalCarsAvailable := h.mp hav
  unfold carInv createCarSave
  by_cases h1 : car.totalCarsAvailable = 1
  · simp [h1]
  · simp [h1, hav]
    omega

theorem cancelBooking_ok_car {bk : Booking} {fc : String → Option Car}
    {actor : Actor} {reason : String} {b : Booking} {c : Car}
    (h : cancelBooking (some bk) fc actor reason = .ok (b, c))
    {car : Car} (hcar : fc bk.car = some car) : c = releaseUnitCar car := by
  simp only [cancelBooking, hcar] at h
  split_ifs at h
  simp at h
  exact h.2.symm

theorem reconfirmCarSave_inv (car : Car) (h : carInv car)
    (hpos : 0 < car.totalCarsAvailable) :
    carInv (if car.totalCarsAvailable - 1 = 0
      then { car with totalCarsAvailable := car.totalCarsAvailable - 1
                      isAvailable := false }
      else { car with totalCarsAvailable := car.totalCarsAvailable - 1 }) := by
  have hav : car.isAvailable = true := h.mpr hpos
  unfold carInv
  split
  · rename_i h0
    simp [h0]
  · rename_i h0
    simp [hav]
    omega

/-- C7: the redundancy predicate `isAvailable = (availableUnits > 0)` on a
car is preserved by every core operation that writes the car: a successful
create (clamped decrement), a cancel (increment), an admin status change
to `cancelled` (increment), and an admin change from `cancelled` to
`confirmed` (guarded decrement). -/
theorem carInv_preserved
    (fc : String → Option Car) (bookings : List Booking) (uid : String)
    (req : CreateRequest) (actor : Actor) (reason : String)
    (reasonOpt : Option String) (bk : Booking) (b : Booking) (car : Car)
    (c : Car) (oc : Option Car) :
    (fc req.carId = some car → carInv car →
      createBooking fc bookings uid req = .ok (b, c) → carInv c) ∧
    (fc bk.car = some car → carInv car →
      cancelBooking (some bk) fc actor reason = .ok (b, c) → carInv c) ∧
    (fc bk.car = some car → carInv car → bk.bookingStatus ≠ .cancelled →
      updateBooking (some bk) fc (some "cancelled") reasonOpt = .ok (b, oc) →
      ∀ c2, oc = some c2 → carInv c2) ∧
    (fc bk.car = some car → carInv car → bk.bookingStatus = .cancelled →
      updateBooking (some bk) fc (some "confirmed") reasonOpt = .ok (b, oc) →
      ∀ c2, oc = some c2 → carInv c2) := by
  refine ⟨?_, ?_, ?_, ?_⟩
  · intro hcar hinv hok
    obtain ⟨p, d, car0, hp, hd, hpd, hcar0, hav0, hany, hb, hc⟩ :=
      createBooking_ok_inv hok
    rw [hcar] at hcar0
    obtain rfl : car = car0 := Option.some.inj hcar0
    subst hc
    exact createCarSave_inv car hinv hav0
  · intro hcar hinv hok
    rw [cancelBooking_ok_car hok hcar]
    exact releaseUnitCar_inv car hinv
  · intro hcar hinv hne hok
    rw [updateBooking_cancelled_run fc reasonOpt bk hne, hcar] at hok
    simp only [Option.map_some', Except.ok.injEq, Prod.mk.injEq] at hok
    intro c2 hc2
    rw [← hok.2] at hc2
    obtain rfl : releaseUnitCar car = c2 := Option.some.inj hc2
    exact releaseUnitCar_inv car hinv
  · intro hcar hinv hcanc hok
    rw [updateBooking_reconfirm_run fc reasonOpt bk car hcanc hcar] at hok
    by_cases hle : car.totalCarsAvailable ≤ 0
    · rw [if_pos hle] at hok
      exact absurd hok (by simp)
    · rw [if_neg hle] at hok
      simp only [Except.ok.injEq, Prod.mk.injEq] at hok
      intro c2 hc2
      rw [← hok.2] at hc2
      obtain rfl := Option.some.inj hc2
      exact reconfirmCarSave_inv car hinv (by omega)

/-- Witness for C7: the cancel conjunct applied to a concrete car with one
unit and the invariant holding. -/
theorem carInv_preserved_witness :
    oneUnitCatalog sampleBooking.car = some oneUnitCar ∧ carInv oneUnitCar ∧
    cancelBooking (some sampleBooking) oneUnitCatalog
      { id := "u1", role := "user" } "plans" =
      .ok (preSave { sampleBooking with
            bookingStatus := .cancelled
            cancellationReason := some "plans" },
        releaseUnitCar oneUnitCar) ∧
    carInv (releaseUnitCar oneUnitCar) :=
  ⟨by decide, by decide, by decide,
    (carInv_preserved oneUnitCatalog [] "u1" sampleReq
      { id := "u1", role := "user" } "plans" none sampleBooking
      (preSave { sampleBooking with
          bookingStatus := .cancelled
          cancellationReason := some "plans" })
      oneUnitCar (releaseUnitCar oneUnitCar) none).2.1
      (by decide) (by decide) (by decide)⟩

/-- C8, counterexample: the inventory increment on confirmed-to-cancelled
is NOT capped.  Cancelling a confirmed reservation on a car whose counter
already sits at its full stock of 1 (the schema default) drives the
counter to 2, whereas the spec-modelled capped release with
`totalUnits = 1` leaves it at 1; the `Car` schema stores no `totalUnits`
field at all, so no cap can be (and none is) applied. -/
theorem release_uncapped_counterexample :
    cancelBooking (some sampleBooking) oneUnitCatalog
      { id := "u1", role := "user" } "changed plans" =
      .ok (preSave { sampleBooking with
            bookingStatus := .cancelled
            cancellationReason := some "changed plans" },
        { pricePerDay := 50, totalCarsAvailable := 2, isAvailable := true }) ∧
    (releaseUnitSpec 1 oneUnitCar).totalCarsAvailable = 1 ∧
    ¬ ((2 : Int) ≤ 1) := by
  decide

/-- C8 (amended): on every confirmed-to-cancelled transition (cancel
endpoint or admin status change) the car's unit counter increases by
exactly 1, unconditionally — there is no `totalUnits` field and no cap —
and on the reverse cancelled-to-confirmed transition the counter
decreases by exactly 1 or the operation fails with the fully-booked
error. -/
theorem inventory_symmetry_uncapped
    (fc : String → Option Car) (actor : Actor) (reason : String)
    (reasonOpt : Option String) (bk : Booking) (b : Booking) (c : Car)
    (oc : Option Car) (car : Car) :
    (fc bk.car = some car → bk.bookingStatus = .confirmed →
      cancelBooking (some bk) fc actor reason = .ok (b, c) →
      c.totalCarsAvailable = car.totalCarsAvailable + 1) ∧
    (fc bk.car = some car → bk.bookingStatus = .confirmed →
      updateBooking (some bk) fc (some "cancelled") reasonOpt = .ok (b, oc) →
      oc = some (releaseUnitCar car) ∧
      (releaseUnitCar car).totalCarsAvailable = car.totalCarsAvailable + 1) ∧
    (fc bk.car = some car → bk.bookingStatus = .cancelled →
      (car.totalCarsAvailable ≤ 0 →
        updateBooking (some bk) fc (some "confirmed") reasonOpt =
          .error .fullyBooked) ∧
      (0 < car.totalCarsAvailable → ∀ c2,
        updateBooking (some bk) fc (some "confirmed") reasonOpt =
          .ok (b, some c2) →
        c2.totalCarsAvailable = car.totalCarsAvailable - 1)) := by
  refine ⟨?_, ?_, ?_⟩
  · intro hcar hst hok
    rw [cancelBooking_ok_car hok hcar]
    exact releaseUnitCar_counter car
  · intro hcar hst hok
    have hne : bk.bookingStatus ≠ .cancelled := by simp [hst]
    rw [updateBooking_cancelled_run fc reasonOpt bk hne, hcar] at hok
    simp only [Option.map_some', Except.ok.injEq, Prod.mk.injEq] at hok
    exact ⟨hok.2.symm, releaseUnitCar_counter car⟩
  · intro hcar hst
    constructor
    · intro hle
      rw [updateBooking_reconfirm_run fc reasonOpt bk car hst hcar, if_pos hle]
    · intro hgt c2 hok
      rw [updateBooking_reconfirm_run fc reasonOpt bk car hst hcar,
        if_neg (by omega)] at hok
      simp only [Except.ok.injEq, Prod.mk.injEq, Option.some.injEq] at hok
      rw [← hok.2]
      split <;> rfl

/-- Witness for C8: the cancel conjunct at a concrete confirmed booking. -/
theorem inventory_symmetry_uncapped_witness :
    oneUnitCatalog sampleBooking.car = some oneUnitCar ∧
    sampleBooking.bookingStatus = .confirmed ∧
    (releaseUnitCar oneUnitCar).totalCarsAvailable =
      oneUnitCar.totalCarsAvailable + 1 :=
  ⟨by decide, rfl,
    (inventory_symmetry_uncapped oneUnitCatalog { id := "u1", role := "user" }
      "changed plans" none sampleBooking
      (preSave { sampleBooking with
          bookingStatus := .cancelled
          cancellationReason := some "changed plans" })
      (releaseUnitCar oneUnitCar) none oneUnitCar).1
      (by decide) rfl (by decide)⟩

/-- C10: when the create request omits the `insuranceSelected` field, the
persisted reservation stores `insuranceSelected = true` (the controller
persists `insuranceSelected !== false`) and its final total price includes
the 15-per-day insurance surcharge on top of the price the controller
initially computed (which treated the omitted flag as falsy), because the
pre-save hook recomputes the price from the stored flags. -/
theorem omitted_insurance_charged
    (fc : String → Option Car) (bookings : List Booking) (uid : String)
    (req : CreateRequest) (b : Booking) (c : Car)
    (hins : req.insuranceSelected = none)
    (h : createBooking fc bookings uid req = .ok (b, c)) :
    b.insuranceSelected = true ∧
    b.totalPrice = (b.pricePerDay * (b.totalDays : Int)
      + (if b.additionalDriver then 10 * (b.totalDays : Int) else 0))
      + 15 * (b.totalDays : Int) := by
  obtain ⟨p, d, car, hp, hd, hpd, hcar, hav, hany, hb, hc⟩ :=
    createBooking_ok_inv h
  have hinsb : (newBookingDoc uid req p d car).insuranceSelected = true := by
    simp [newBookingDoc, hins]
  obtain ⟨-, -, -, -, hppd, hinsf, hadd, -, htd, hpr⟩ :=
    preSave_fields (newBookingDoc uid req p d car)
  subst hb
  refine ⟨by rw [hinsf, hinsb], ?_⟩
  rw [hpr, htd, hppd, hadd, hinsb]
  simp only [if_pos]
  ring

/-- Witness for C10: the concrete three-day creation at rate 50/day with
the insurance field omitted still prices insurance: total 195, not 150. -/
theorem omitted_insurance_charged_witness :
    sampleReqNoIns.insuranceSelected = none ∧
    createBooking oneUnitCatalog [] "u1" sampleReqNoIns =
      .ok (preSave (newBookingDoc "u1" sampleReqNoIns 0 259200000 oneUnitCar),
        createCarSave oneUnitCar) ∧
    (preSave (newBookingDoc "u1" sampleReqNoIns 0 259200000 oneUnitCar)).totalPrice = 195 ∧
    ((preSave (newBookingDoc "u1" sampleReqNoIns 0 259200000 oneUnitCar)).insuranceSelected = true ∧
      (preSave (newBookingDoc "u1" sampleReqNoIns 0 259200000 oneUnitCar)).totalPrice =
        ((preSave (newBookingDoc "u1" sampleReqNoIns 0 259200000 oneUnitCar)).pricePerDay *
            ((preSave (newBookingDoc "u1" sampleReqNoIns 0 259200000 oneUnitCar)).totalDays : Int)
          + (if (preSave (newBookingDoc "u1" sampleReqNoIns 0 259200000 oneUnitCar)).additionalDriver
              then 10 * ((preSave (newBookingDoc "u1" sampleReqNoIns 0 259200000 oneUnitCar)).totalDays : Int) else 0))
          + 15 * ((preSave (newBookingDoc "u1" sampleReqNoIns 0 259200000 oneUnitCar)).totalDays : Int)) :=
  ⟨rfl, by decide, by decide,
    omitted_insurance_charged oneUnitCatalog [] "u1" sampleReqNoIns
      (preSave (newBookingDoc "u1" sampleReqNoIns 0 259200000 oneUnitCar))
      (createCarSave oneUnitCar) rfl (by decide)⟩
